import Mathlib

/-!
Verification of the study-timer application (`study_timer_project.py`).

The development shallowly embeds the timer state machine, the CSV row
construction, the analytics chart pipelines and the daily-target check.
Clock instants are rationals measured in days for dates and in seconds for
the timer; Python `int()` truncation is modelled by `pyInt`, and Python
floor division `//` by `Int.fdiv`.
-/

namespace StudyTimer

/-- Python `int()` on a real value: truncation toward zero. -/
def pyInt (q : ℚ) : ℤ := if 0 ≤ q then ⌊q⌋ else ⌈q⌉

/-- The mutable timer fields of the application:
`timer_running`, `start_time`, `accumulated_seconds`. -/
structure TimerState where
  timer_running : Bool
  start_time : Option ℚ
  accumulated_seconds : ℚ
deriving DecidableEq

/-- The timer state at application start. -/
def initTimer : TimerState := ⟨false, none, 0⟩

/-- Abstract phases of the timer, as the specification names them.
The code has no phase variable; `Running` is `timer_running`, `Paused` is
stopped-with-accrued-time, `Idle` is stopped with nothing accrued. -/
inductive TimerPhase
  | Idle
  | Running
  | Paused
deriving DecidableEq

/-- Phase abstraction of a concrete timer state. -/
def phase (s : TimerState) : TimerPhase :=
  if s.timer_running then .Running
  else if 0 < s.accumulated_seconds then .Paused
  else .Idle

/-- `_start_timer`: no-op while running, otherwise records the start instant. -/
def start_timer (now : ℚ) (s : TimerState) : TimerState :=
  if s.timer_running then s
  else { timer_running := true, start_time := some now,
         accumulated_seconds := s.accumulated_seconds }

/-- `_pause_timer`: no-op unless running; folds the live interval into
`accumulated_seconds` and clears the start instant. -/
def pause_timer (now : ℚ) (s : TimerState) : TimerState :=
  if s.timer_running then
    { timer_running := false, start_time := none,
      accumulated_seconds := s.accumulated_seconds +
        (match s.start_time with
         | some t => now - t
         | none => 0) }
  else s

/-- `_reset_timer`: zero the accumulator and return to the stopped state. -/
def reset_timer (_s : TimerState) : TimerState := ⟨false, none, 0⟩

/-- The live interval that `_stop_and_save` folds in: nonzero only when the
timer is running and a start instant is recorded. -/
def stopElapsed (now : ℚ) (s : TimerState) : ℚ :=
  if s.timer_running then
    (match s.start_time with
     | some t => now - t
     | none => 0)
  else 0

/-- `_stop_and_save` restricted to the timer fields: computes the total,
returns early (state unchanged, nothing saved) when the total is not
positive, otherwise saves `int(total_seconds)` and clears the timer. -/
def stop_and_save (now : ℚ) (s : TimerState) : TimerState × Option ℤ :=
  let total := s.accumulated_seconds + stopElapsed now s
  if total ≤ 0 then (s, none)
  else (⟨false, none, 0⟩, some (pyInt total))

/-- One persisted CSV row. Timestamps are rational days since an epoch;
the `date` column stores a calendar day number. -/
structure Row where
  timestamp : ℚ
  date : ℤ
  subject : String
  duration_seconds : ℤ
deriving DecidableEq

/-- Calendar date of an instant, in days: the floor of the day count. -/
def dateOfInstant (t : ℚ) : ℤ := ⌊t⌋

/-- `append_session_csv`: builds the persisted row. The code queries the
clock twice, `datetime.datetime.now()` for the timestamp column and
`datetime.date.today()` for the date column, so the two instants are
separate parameters. -/
def append_session_csv (tsNow dateNow : ℚ) (subject : String) (dur : ℤ) : Row :=
  { timestamp := tsNow, date := dateOfInstant dateNow,
    subject := subject, duration_seconds := dur }

/-- Application state relevant to persistence: the timer fields, the pending
tick job, and the CSV log contents. -/
structure AppState where
  timer : TimerState
  timer_job : Bool
  log : List Row
deriving DecidableEq

/-- `_reset_timer` at application level: stops the timer, cancels the pending
tick, zeroes the accumulator, touches nothing else. -/
def app_reset_timer (st : AppState) : AppState :=
  { timer := ⟨false, none, 0⟩, timer_job := false, log := st.log }

/-- `_stop_and_save` at application level: on the save branch the row built by
`append_session_csv` is appended to the CSV and the tick is cancelled; on the
early-return branch nothing changes. -/
def app_stop_and_save (tsNow dateNow T : ℚ) (subject : String)
    (st : AppState) : AppState :=
  match stop_and_save T st.timer with
  | (_, none) => st
  | (t2, some d) =>
      { timer := t2, timer_job := false,
        log := st.log ++ [append_session_csv tsNow dateNow subject d] }

/-- Total `duration_seconds` over the rows of one subject. -/
def sumSubject (rows : List Row) (sub : String) : ℤ :=
  ((rows.filter (fun r => r.subject = sub)).map (fun r => r.duration_seconds)).sum

/-- Total `duration_seconds` over the rows of one calendar date. -/
def sumOnDate (rows : List Row) (d : ℤ) : ℤ :=
  ((rows.filter (fun r => r.date = d)).map (fun r => r.duration_seconds)).sum

/-- Pandas `groupby('subject')['duration_seconds'].sum()`: one entry per
subject occurring in the rows, holding that subject's total. -/
def groupby_subject_sum (rows : List Row) : List (String × ℤ) :=
  ((rows.map (fun r => r.subject)).dedup).map (fun sub => (sub, sumSubject rows sub))

/-- Pandas `groupby('date')['duration_seconds'].sum()`: one entry per date
occurring in the rows, holding that date's total. -/
def groupby_date_sum (rows : List Row) : List (ℤ × ℤ) :=
  ((rows.map (fun r => r.date)).dedup).map (fun d => (d, sumOnDate rows d))

/-- Ordering used by `sort_values(ascending=False)`: larger totals first. -/
def bySumDesc (a b : String × ℤ) : Prop := b.2 ≤ a.2

instance : DecidableRel bySumDesc :=
  fun a b => inferInstanceAs (Decidable (b.2 ≤ a.2))

instance : IsTotal (String × ℤ) bySumDesc :=
  ⟨fun a b => le_total b.2 a.2⟩

instance : IsTrans (String × ℤ) bySumDesc :=
  ⟨fun _ _ _ h1 h2 => le_trans h2 h1⟩

/-- `_draw_subject_chart`: with an empty log, or an empty 7-day window, no
bars are drawn; otherwise the per-subject totals of the rows dated on or
after `now - 7` days are sorted descending and plotted as `seconds / 60`
(true division). `now` is the full current instant in days, as
`pd.Timestamp.today()` returns, not a midnight-truncated date. -/
def draw_subject_chart (rows : List Row) (now : ℚ) : List (String × ℚ) :=
  if rows.isEmpty then []
  else if (groupby_subject_sum (rows.filter (fun r => now - 7 ≤ (r.date : ℚ)))).isEmpty then []
  else (List.insertionSort bySumDesc
      (groupby_subject_sum (rows.filter (fun r => now - 7 ≤ (r.date : ℚ))))).map
    (fun p => (p.1, (p.2 : ℚ) / 60))

/-- Lookup with default, as `grouped.get(key, 0)`. -/
def lookupOr (l : List (ℤ × ℤ)) (k : ℤ) (dflt : ℤ) : ℤ :=
  match l.find? (fun p => p.1 = k) with
  | some p => p.2
  | none => dflt

/-- `_draw_daily_chart`: with an empty log no series is drawn (the code
returns after writing a text annotation); otherwise one value per date from
`today - 13` through `today`, each the date's total over 60 in true
division, with 0 for dates absent from the log. -/
def draw_daily_chart (rows : List Row) (now : ℚ) : Option (List ℚ) :=
  if rows.isEmpty then none
  else some ((List.range 14).map
    (fun i : ℕ => ((lookupOr (groupby_date_sum rows) (⌊now⌋ - 13 + (i : ℤ)) 0 : ℤ) : ℚ) / 60))

/-- Today's total in whole minutes as `_check_daily_target_and_notify` and
`_refresh_overview` compute it: 0 for an empty frame, otherwise the
floor-division `sum // 60` of today's seconds. -/
def total_today_minutes (rows : List Row) (today : ℤ) : ℤ :=
  if rows.isEmpty then 0
  else Int.fdiv (sumOnDate rows today) 60

/-- The target actually used by the code: `max(1, int(entry or 60))` — an
entry of 0 falls back to 60, and anything below 1 is clamped to 1. -/
def effective_target (raw : ℤ) : ℤ := max 1 (if raw = 0 then 60 else raw)

/-- Writing the target entry: the variable is overwritten unconditionally,
no validation consults the prior value. -/
def set_target_var (m : ℤ) (_prior : ℤ) : ℤ := m

/-- `_check_daily_target_and_notify`: recomputes today's total from the CSV
and pops the congratulation whenever it meets the effective target. There
is no per-date flag; the result depends only on the current data. -/
def check_daily_target_and_notify (rows : List Row) (today : ℤ)
    (rawTarget : ℤ) : Bool :=
  decide (effective_target rawTarget ≤ total_today_minutes rows today)

/-- One raw CSV row as `_refresh_recent_sessions` sees it: the timestamp and
subject cells as text, and the duration cell as `some` integer when `int()`
accepts it, `none` when `int()` would raise. -/
structure RawRow where
  timestamp : String
  subject : String
  duration_field : Option ℤ
deriving DecidableEq

/-- `df.tail(8).iloc[::-1]`: the last eight rows, newest first. -/
def last8 (l : List RawRow) : List RawRow := l.reverse.take 8

/-- One listbox line: timestamp text, subject, and `dur // 60` minutes. -/
def mkEntry (r : RawRow) (d : ℤ) : String × String × ℤ :=
  (r.timestamp, r.subject, Int.fdiv d 60)

/-- The insertion loop of `_refresh_recent_sessions`: rows are inserted one
by one; the first duration cell that `int()` rejects raises, the exception
propagates to the outer handler, and the loop stops there. Returns the
listbox contents and whether the refresh aborted. -/
def refreshGo : List RawRow → List (String × String × ℤ) × Bool
  | [] => ([], false)
  | r :: rs =>
      match r.duration_field with
      | none => ([], true)
      | some d =>
          let p := refreshGo rs
          (mkEntry r d :: p.1, p.2)

/-- `_refresh_recent_sessions`: clear the listbox, then insert the newest
eight rows until a malformed duration aborts the refresh. -/
def refresh_recent_sessions (rows : List RawRow) : List (String × String × ℤ) × Bool :=
  refreshGo (last8 rows)

/-- One start/pause cycle driven through the timer state machine. -/
def runCycle (s : TimerState) (c : ℚ × ℚ) : TimerState :=
  pause_timer c.2 (start_timer c.1 s)

/-- A whole sequence of start/pause cycles. -/
def runCycles (cs : List (ℚ × ℚ)) (s : TimerState) : TimerState :=
  cs.foldl runCycle s

/-- The mathematical sum of the active-interval lengths of the cycles. -/
def activeSum (cs : List (ℚ × ℚ)) : ℚ :=
  (cs.map (fun c => c.2 - c.1)).sum

/-- An optional trailing resume before the final stop. -/
def finalStart (tail : Option ℚ) (s : TimerState) : TimerState :=
  match tail with
  | some t => start_timer t s
  | none => s

/-- The live time the trailing resume contributes at the stop instant. -/
def finalLive (tail : Option ℚ) (T : ℚ) : ℚ :=
  match tail with
  | some t => T - t
  | none => 0

/-- AnalyticsEngine `perSubjectLastNDays` exactly as the specification words
it: window `date ≥ today - (n-1)`, per-subject sums floor-divided by 60,
sorted by minutes descending with ties by subject name ascending. Stated
from the specification for comparison with `draw_subject_chart`. -/
def specTieOrder (a b : String × ℤ) : Prop :=
  b.2 < a.2 ∨ (a.2 = b.2 ∧ a.1 ≤ b.1)

instance : DecidableRel specTieOrder :=
  fun a b => inferInstanceAs (Decidable (b.2 < a.2 ∨ (a.2 = b.2 ∧ a.1 ≤ b.1)))

/-- The specification's `perSubjectLastNDays`, with floor-division minutes. -/
def perSubjectLastNDays_spec (rows : List Row) (n : ℤ) (today : ℤ) :
    List (String × ℤ) :=
  let window := rows.filter (fun r => today - (n - 1) ≤ r.date)
  let grouped := ((window.map (fun r => r.subject)).dedup).map
    (fun sub => (sub, Int.fdiv (sumSubject window sub) 60))
  List.insertionSort specTieOrder grouped

/-- The specification's `dailyLastNDays`, with floor-division minutes and a
dense window of `n` dates ending at `today`, oldest first. -/
def dailyLastNDays_spec (rows : List Row) (n : ℕ) (today : ℤ) : List ℤ :=
  (List.range n).map (fun i : ℕ => Int.fdiv (sumOnDate rows (today - (n - 1) + (i : ℤ))) 60)

/-! Helper lemmas about the timer state machine. -/

lemma start_timer_stopped (now a : ℚ) :
    start_timer now ⟨false, none, a⟩ = ⟨true, some now, a⟩ := by
  simp [start_timer]

lemma runCycle_stopped (a : ℚ) (c : ℚ × ℚ) :
    runCycle ⟨false, none, a⟩ c = ⟨false, none, a + (c.2 - c.1)⟩ := by
  simp [runCycle, start_timer, pause_timer]

lemma runCycles_stopped (cs : List (ℚ × ℚ)) (a : ℚ) :
    runCycles cs ⟨false, none, a⟩ = ⟨false, none, a + activeSum cs⟩ := by
  induction cs generalizing a with
  | nil => simp [runCycles, activeSum]
  | cons c cs ih =>
      have h1 : runCycles (c :: cs) ⟨false, none, a⟩ =
          runCycles cs ⟨false, none, a + (c.2 - c.1)⟩ := by
        simp [runCycles, runCycle_stopped]
      rw [h1, ih]
      have h2 : a + (c.2 - c.1) + activeSum cs = a + activeSum (c :: cs) := by
        simp [activeSum]
        ring
      rw [h2]

lemma stopElapsed_stopped (now a : ℚ) :
    stopElapsed now ⟨false, none, a⟩ = 0 := by
  simp [stopElapsed]

lemma stopElapsed_running (now t a : ℚ) :
    stopElapsed now ⟨true, some t, a⟩ = now - t := by
  simp [stopElapsed]

lemma stop_and_save_pos (now a : ℚ) (r : Bool) (o : Option ℚ)
    (h : 0 < a + stopElapsed now ⟨r, o, a⟩) :
    stop_and_save now ⟨r, o, a⟩ =
      (⟨false, none, 0⟩, some ⌊a + stopElapsed now ⟨r, o, a⟩⌋) := by
  unfold stop_and_save pyInt
  simp only
  rw [if_neg (not_le.mpr h), if_pos h.le]

lemma stop_and_save_pos_state (now : ℚ) (s : TimerState)
    (h : 0 < s.accumulated_seconds + stopElapsed now s) :
    stop_and_save now s =
      (⟨false, none, 0⟩, some ⌊s.accumulated_seconds + stopElapsed now s⌋) := by
  obtain ⟨r, o, a⟩ := s
  exact stop_and_save_pos now a r o h

/-- **C1** — corrected. The claim says the recorded duration is the
`round` of the total active time; the code applies Python `int()`
(truncation).  A single run of 0.9 seconds is recorded as 0 seconds while
`round` of 0.9 is 1. -/
theorem C1_counterexample :
    (stop_and_save (9/10) (start_timer 0 initTimer)).2 = some 0 ∧
    round ((9:ℚ)/10 - 0) = 1 ∧
    (stop_and_save (9/10) (start_timer 0 initTimer)).2 ≠ some (round ((9:ℚ)/10 - 0)) := by
  have h1 : (stop_and_save (9/10) (start_timer 0 initTimer)).2 = some 0 := by
    norm_num [stop_and_save, stopElapsed, start_timer, initTimer, pyInt]
  have h2 : round ((9:ℚ)/10 - 0) = 1 := by norm_num [round_eq]
  refine ⟨h1, h2, ?_⟩
  rw [h1, h2]
  decide

/-- **C1 amended** — for every sequence of start/pause cycles, optionally a
final resume, ending in stop with positive total active time, the recorded
duration is the floor (Python `int()` truncation) of the sum of the active
interval lengths, independent of how many cycles occurred. -/
theorem C1_stop_duration_truncates (cs : List (ℚ × ℚ)) (tail : Option ℚ) (T : ℚ)
    (h : 0 < activeSum cs + finalLive tail T) :
    (stop_and_save T (finalStart tail (runCycles cs initTimer))).2 =
      some ⌊activeSum cs + finalLive tail T⌋ := by
  have hrun : runCycles cs initTimer = ⟨false, none, 0 + activeSum cs⟩ :=
    runCycles_stopped cs 0
  cases tail with
  | none =>
      rw [show finalStart none (runCycles cs initTimer) =
            ⟨false, none, 0 + activeSum cs⟩ from by rw [finalStart, hrun]]
      have htot : (0 + activeSum cs) +
          stopElapsed T (⟨false, none, 0 + activeSum cs⟩ : TimerState) =
          activeSum cs + finalLive none T := by
        rw [stopElapsed_stopped]
        simp only [finalLive]
        ring
      rw [stop_and_save_pos T (0 + activeSum cs) false none
        (by rw [htot]; exact h)]
      rw [htot]
  | some t =>
      rw [show finalStart (some t) (runCycles cs initTimer) =
            ⟨true, some t, 0 + activeSum cs⟩ from by
          rw [finalStart, hrun, start_timer_stopped]]
      have htot : (0 + activeSum cs) +
          stopElapsed T (⟨true, some t, 0 + activeSum cs⟩ : TimerState) =
          activeSum cs + finalLive (some t) T := by
        rw [stopElapsed_running]
        simp only [finalLive]
        ring
      rw [stop_and_save_pos T (0 + activeSum cs) true (some t)
        (by rw [htot]; exact h)]
      rw [htot]

/-- **C1 witness** — the specification's own example: run 0–90, resume
120–150, stop: 120 seconds recorded. -/
theorem C1_witness :
    (stop_and_save 200 (finalStart none
        (runCycles [((0:ℚ),(90:ℚ)), (120, 150)] initTimer))).2 =
      some ⌊activeSum [((0:ℚ),(90:ℚ)), (120, 150)] + finalLive none 200⌋ :=
  C1_stop_duration_truncates [((0:ℚ),(90:ℚ)), (120, 150)] none 200
    (by norm_num [activeSum, finalLive])

/-- **C2** — corrected. The claim says stop always leaves the timer Idle
with zero accumulated time, for the "nothing to save" outcome too; but the
code returns early on that branch without touching the state.  Stopping a
timer that was started at the same instant (elapsed 0) takes that branch and
leaves the timer Running. -/
theorem C2_counterexample :
    phase ((stop_and_save 5 (start_timer 5 initTimer)).1) = TimerPhase.Running ∧
    TimerPhase.Running ≠ TimerPhase.Idle := by
  have h1 : (stop_and_save 5 (start_timer 5 initTimer)).1 =
      ⟨true, some 5, 0⟩ := by
    norm_num [stop_and_save, stopElapsed, start_timer, initTimer]
  rw [h1]
  exact ⟨by simp [phase], by decide⟩

/-- **C2 amended** — when stop saves a session it leaves the timer in Idle
with zero accumulated seconds and no start instant; on the "nothing to
save" outcome the timer state is left exactly as it was. -/
theorem C2_stop_idle_or_unchanged (now : ℚ) (s : TimerState) :
    ((stop_and_save now s).2.isSome →
        (stop_and_save now s).1 = ⟨false, none, 0⟩ ∧
        phase (stop_and_save now s).1 = TimerPhase.Idle) ∧
    ((stop_and_save now s).2 = none → (stop_and_save now s).1 = s) := by
  unfold stop_and_save
  by_cases h : s.accumulated_seconds + stopElapsed now s ≤ 0 <;>
    simp [h, phase]

/-- **C2 witness** — a concrete save: started at 0, stopped at 10. -/
theorem C2_witness :
    (stop_and_save 10 ⟨true, some 0, 0⟩).1 = ⟨false, none, 0⟩ :=
  ((C2_stop_idle_or_unchanged 10 ⟨true, some 0, 0⟩).1
    (by norm_num [stop_and_save, stopElapsed, pyInt])).1

/-- **C6** — corrected. The claim says every persisted session has
`durationSeconds ≥ 1`; but for a run of half a second the guard
`total_seconds > 0` passes and `int(0.5) = 0` is persisted. -/
theorem C6_counterexample :
    (stop_and_save (3/2) (start_timer 1 initTimer)).2 = some 0 ∧
    ¬ (1 : ℤ) ≤ 0 := by
  constructor
  · norm_num [stop_and_save, stopElapsed, start_timer, initTimer, pyInt]
  · decide

/-- **C6 amended** — stop saves nothing exactly when the total elapsed time
is not positive; every saved duration is the truncation of the positive
total, hence an integer ≥ 0, and it is ≥ 1 whenever the total is at least
one second (0 occurs exactly for totals strictly between 0 and 1). -/
theorem C6_saved_duration_bounds (now : ℚ) (s : TimerState) :
    ((stop_and_save now s).2 = none ↔
      s.accumulated_seconds + stopElapsed now s ≤ 0) ∧
    (∀ d : ℤ, (stop_and_save now s).2 = some d →
      d = ⌊s.accumulated_seconds + stopElapsed now s⌋ ∧ 0 ≤ d ∧
      ((1 : ℚ) ≤ s.accumulated_seconds + stopElapsed now s → 1 ≤ d)) := by
  constructor
  · unfold stop_and_save
    by_cases h : s.accumulated_seconds + stopElapsed now s ≤ 0 <;> simp [h]
  · intro d hd
    by_cases h : s.accumulated_seconds + stopElapsed now s ≤ 0
    · exfalso
      unfold stop_and_save at hd
      simp [h] at hd
    · have hpos : 0 < s.accumulated_seconds + stopElapsed now s := not_le.mp h
      rw [stop_and_save_pos_state now s hpos] at hd
      simp only [Option.some.injEq] at hd
      subst hd
      refine ⟨rfl, ?_, ?_⟩
      · exact Int.le_floor.mpr (by exact_mod_cast hpos.le)
      · intro h1
        exact Int.le_floor.mpr (by exact_mod_cast h1)

/-- **C6 witness** — started at 0, stopped at 10: the saved duration is 10,
and 0 ≤ 10. -/
theorem C6_witness :
    0 ≤ (10 : ℤ) ∧ (stop_and_save 10 ⟨true, some 0, 0⟩).2 = some 10 :=
  ⟨(((C6_saved_duration_bounds 10 ⟨true, some 0, 0⟩).2 10
      (by norm_num [stop_and_save, stopElapsed, pyInt])).2).1,
   by norm_num [stop_and_save, stopElapsed, pyInt]⟩

/-- **C7** — corrected. The claim says the persisted `date` always equals
the calendar date of the persisted `timestamp`; the code queries the clock
twice (`datetime.now()` then `date.today()`), so when the two reads straddle
midnight the columns disagree. -/
theorem C7_counterexample :
    (append_session_csv (99/100) 1 "Math" 30).date = 1 ∧
    dateOfInstant (append_session_csv (99/100) 1 "Math" 30).timestamp = 0 ∧
    (1 : ℤ) ≠ 0 := by
  refine ⟨?_, ?_, by decide⟩ <;>
    norm_num [append_session_csv, dateOfInstant]

/-- **C7 amended** — whenever the two clock reads of `append_session_csv`
fall on the same calendar date (in particular whenever they do not straddle
midnight), the persisted `date` equals the calendar date of the persisted
`timestamp`. -/
theorem C7_date_matches_timestamp (tsNow dateNow : ℚ) (subject : String)
    (dur : ℤ) (h : ⌊tsNow⌋ = ⌊dateNow⌋) :
    (append_session_csv tsNow dateNow subject dur).date =
      dateOfInstant (append_session_csv tsNow dateNow subject dur).timestamp := by
  simp [append_session_csv, dateOfInstant, h]

/-- **C7 witness** — both reads inside the same day. -/
theorem C7_witness :
    (append_session_csv (1/2) (3/4) "Math" 30).date =
      dateOfInstant (append_session_csv (1/2) (3/4) "Math" 30).timestamp :=
  C7_date_matches_timestamp (1/2) (3/4) "Math" 30 (by norm_num)

/-- **C8** — corrected. The claim says a non-positive `setTarget` input is
rejected and the prior target retained; the code stores whatever the entry
holds and, at use time, clamps with `max(1, value or 60)`: with prior
target 45, input −5 yields effective target 1, not 45. -/
theorem C8_counterexample :
    set_target_var (-5) 45 = -5 ∧ effective_target (-5) = 1 ∧
    ((-5 : ℤ) ≠ 45 ∧ (1 : ℤ) ≠ 45) := by
  decide

/-- **C8 amended** — the target variable is overwritten unconditionally;
the effective target used by the checks is always ≥ 1, equals the input for
positive inputs, is clamped to 1 for negative inputs and falls back to 60
for input 0. -/
theorem C8_target_clamped (m prior : ℤ) :
    set_target_var m prior = m ∧
    1 ≤ effective_target m ∧
    (0 < m → effective_target m = m) ∧
    (m < 0 → effective_target m = 1) ∧
    (m = 0 → effective_target m = 60) := by
  refine ⟨rfl, le_max_left _ _, ?_, ?_, ?_⟩
  · intro hm
    rw [effective_target, if_neg (by omega : m ≠ 0)]
    omega
  · intro hm
    rw [effective_target, if_neg (by omega : m ≠ 0)]
    omega
  · intro hm
    rw [effective_target, if_pos hm]
    norm_num

/-- **C8 witness** — a positive input becomes the target. -/
theorem C8_witness :
    set_target_var 45 60 = 45 ∧ effective_target 45 = 45 :=
  ⟨(C8_target_clamped 45 60).1, (C8_target_clamped 45 60).2.2.1 (by decide)⟩

/-- **C10** — confirmed. Reset mutates only the timer: it stops it, cancels
the pending tick, zeroes the accumulator, and leaves the persisted log
untouched; any time accrued is discarded, and a stop issued right after the
reset persists nothing. -/
theorem C10_reset_frame (st : AppState) (tsNow dateNow T : ℚ) (subject : String) :
    (app_reset_timer st).log = st.log ∧
    (app_reset_timer st).timer = ⟨false, none, 0⟩ ∧
    (app_reset_timer st).timer_job = false ∧
    (app_stop_and_save tsNow dateNow T subject (app_reset_timer st)).log = st.log := by
  refine ⟨rfl, rfl, rfl, ?_⟩
  simp [app_stop_and_save, app_reset_timer, stop_and_save, stopElapsed]

/-- **C3** — corrected. The claim says the target-achieved notification
fires at most once per calendar date; the code keeps no per-date flag, so
after a 30-minute session meets the 30-minute target, the very next check
on the same date (with one more session logged) pops the notification
again. -/
theorem C3_counterexample :
    check_daily_target_and_notify [⟨0, 0, "Math", 1800⟩] 0 30 = true ∧
    check_daily_target_and_notify
      [⟨0, 0, "Math", 1800⟩, ⟨0, 0, "Physics", 600⟩] 0 30 = true := by
  constructor <;> decide

/-- **C3 amended** — the notification fires on every check whose recomputed
today-total (floor minutes) meets the effective target; the outcome depends
only on the current log contents, date and target, with no per-date
suppression, so repeated checks past the target all fire. -/
theorem C3_notify_every_time (rows : List Row) (today raw : ℤ) :
    check_daily_target_and_notify rows today raw = true ↔
      effective_target raw ≤ Int.fdiv (sumOnDate rows today) 60 := by
  unfold check_daily_target_and_notify total_today_minutes
  by_cases h : rows.isEmpty = true
  · have hnil : rows = [] := List.isEmpty_iff.mp h
    subst hnil
    simp [sumOnDate, Int.zero_fdiv]
  · simp [h]

/-- Characterisation of the insertion loop of `_refresh_recent_sessions`:
it displays the longest prefix of well-formed rows of the newest-first
window, and aborts (without any skipped-row count) as soon as one duration
cell fails to parse. -/
lemma refreshGo_spec (l : List RawRow) :
    refreshGo l =
      ((l.takeWhile (fun r => r.duration_field.isSome)).map
        (fun r => mkEntry r (r.duration_field.getD 0)),
       l.any (fun r => r.duration_field.isNone)) := by
  induction l with
  | nil => rfl
  | cons r rs ih =>
      cases hr : r.duration_field with
      | none => simp [refreshGo, hr]
      | some d => simp [refreshGo, hr, ih]

/-- **C9** — corrected. The claim says a read with malformed rows returns
all well-formed rows and a skipped count; the code wraps the whole refresh
in one exception handler, so the first malformed duration cell aborts the
iteration: here the newest row is malformed and the well-formed older row
is never displayed (and nothing counts skipped rows). -/
theorem C9_counterexample :
    refresh_recent_sessions
      [⟨"2026-01-01T10:00", "Math", some 600⟩,
       ⟨"2026-01-02T10:00", "Physics", none⟩] = ([], true) ∧
    (⟨"2026-01-01T10:00", "Math", some 600⟩ : RawRow).duration_field.isSome = true := by
  exact ⟨rfl, rfl⟩

/-- **C9 amended** — the refresh never crashes: it displays the longest
prefix of rows with parseable duration cells from the newest-first window
of eight, aborts at the first malformed cell (dropping any later
well-formed rows), and reports only a boolean failure (a printed error),
not a count of skipped rows. -/
theorem C9_refresh_abort (rows : List RawRow) :
    (refresh_recent_sessions rows).1 =
      (((last8 rows).takeWhile (fun r => r.duration_field.isSome)).map
        (fun r => mkEntry r (r.duration_field.getD 0))) ∧
    (refresh_recent_sessions rows).2 =
      (last8 rows).any (fun r => r.duration_field.isNone) := by
  rw [refresh_recent_sessions, refreshGo_spec]
  exact ⟨rfl, rfl⟩

/-- For any current instant strictly after midnight, the chart's cutoff
`row date at midnight ≥ now − 7 days` keeps exactly the last seven calendar
dates, i.e. dates ≥ today − 6. -/
lemma cutoff_filter_eq (rows : List Row) (now : ℚ) (h : 0 < now - ⌊now⌋) :
    rows.filter (fun r => now - 7 ≤ (r.date : ℚ)) =
      rows.filter (fun r => ⌊now⌋ - 6 ≤ r.date) := by
  apply List.filter_congr
  intro r _
  simp only [decide_eq_decide]
  have hfl : ((⌊now⌋ : ℤ) : ℚ) ≤ now := Int.floor_le now
  have hfu : now < ((⌊now⌋ : ℤ) : ℚ) + 1 := Int.lt_floor_add_one now
  constructor
  · intro hr
    have h1 : ((⌊now⌋ : ℤ) : ℚ) - 7 < (r.date : ℚ) := by linarith
    have h2 : (⌊now⌋ : ℤ) - 7 < r.date := by exact_mod_cast h1
    omega
  · intro hr
    have h2 : ((⌊now⌋ : ℤ) : ℚ) - 6 ≤ (r.date : ℚ) := by exact_mod_cast hr
    linarith

/-- **C4** — corrected. The claim says the per-subject chart shows
floor-division minutes; the code divides the second totals by 60 with true
division: a single 90-second session charts as 1.5 minutes where the
specification's function yields 1. -/
theorem C4_counterexample :
    draw_subject_chart [⟨0, 10, "Math", 90⟩] 10 = [("Math", (3:ℚ)/2)] ∧
    perSubjectLastNDays_spec [⟨0, 10, "Math", 90⟩] 7 10 = [("Math", 1)] ∧
    ((3:ℚ)/2 ≠ ((1:ℤ) : ℚ)) := by
  refine ⟨?_, by decide, by norm_num⟩
  norm_num [draw_subject_chart, groupby_subject_sum, sumSubject,
    List.insertionSort, List.orderedInsert, List.dedup_cons_of_not_mem]

/-- **C4 amended** — the chart is a permutation of the per-subject totals
of the rows in the 7-day window, valued in exact (not floored) minutes
`seconds / 60`, arranged in weakly descending order of minutes (the tie
order among equal totals is not specified by the code's unstable sort); for
any instant strictly after midnight the window is exactly the sessions
dated within the last 7 calendar dates. -/
theorem C4_subject_chart_shape (rows : List Row) (now : ℚ) :
    List.Perm (draw_subject_chart rows now)
      ((groupby_subject_sum (rows.filter (fun r => now - 7 ≤ (r.date : ℚ)))).map
        (fun p => (p.1, (p.2 : ℚ) / 60))) ∧
    List.Sorted (fun a b : String × ℚ => b.2 ≤ a.2) (draw_subject_chart rows now) ∧
    (0 < now - ⌊now⌋ →
      rows.filter (fun r => now - 7 ≤ (r.date : ℚ)) =
        rows.filter (fun r => ⌊now⌋ - 6 ≤ r.date)) := by
  refine ⟨?_, ?_, cutoff_filter_eq rows now⟩
  · unfold draw_subject_chart
    by_cases h0 : rows.isEmpty = true
    · have hnil : rows = [] := List.isEmpty_iff.mp h0
      subst hnil
      simp [groupby_subject_sum]
    · rw [if_neg h0]
      by_cases h1 : (groupby_subject_sum
          (rows.filter (fun r => now - 7 ≤ (r.date : ℚ)))).isEmpty = true
      · rw [if_pos h1, List.isEmpty_iff.mp h1]
        simp
      · rw [if_neg h1]
        exact (List.perm_insertionSort bySumDesc _).map _
  · unfold draw_subject_chart
    by_cases h0 : rows.isEmpty = true
    · rw [if_pos h0]
      exact List.sorted_nil
    · rw [if_neg h0]
      by_cases h1 : (groupby_subject_sum
          (rows.filter (fun r => now - 7 ≤ (r.date : ℚ)))).isEmpty = true
      · rw [if_pos h1]
        exact List.sorted_nil
      · rw [if_neg h1]
        have hs := List.sorted_insertionSort bySumDesc
          (groupby_subject_sum (rows.filter (fun r => now - 7 ≤ (r.date : ℚ))))
        exact List.Pairwise.map _
          (fun a b hab => by
            have hc : (b.2 : ℚ) ≤ (a.2 : ℚ) := by exact_mod_cast hab
            exact (div_le_div_iff_of_pos_right (by norm_num : (0:ℚ) < 60)).mpr hc) hs

/-- **C4 witness** — the cutoff characterisation at half past noon. -/
theorem C4_witness :
    [(⟨0, 10, "Math", 90⟩ : Row)].filter
        (fun r => (21:ℚ)/2 - 7 ≤ (r.date : ℚ)) =
      [(⟨0, 10, "Math", 90⟩ : Row)].filter
        (fun r => ⌊(21:ℚ)/2⌋ - 6 ≤ r.date) :=
  (C4_subject_chart_shape [⟨0, 10, "Math", 90⟩] (21/2)).2.2 (by norm_num)

/-- A keyed lookup into a key/value table built over a key list containing
the key returns that key's tabulated value. -/
lemma find?_keyed (f : ℤ → ℤ) (keys : List ℤ) (d : ℤ) (hd : d ∈ keys) :
    ((keys.map (fun k => (k, f k))).find? (fun p => p.1 = d)) = some (d, f d) := by
  induction keys with
  | nil => cases hd
  | cons k ks ih =>
      by_cases hk : k = d
      · subst hk
        simp
      · have hd2 : d ∈ ks := by
          rcases List.mem_cons.mp hd with h | h
          · exact absurd h.symm hk
          · exact h
        rw [List.map_cons, List.find?_cons_of_neg _ (by simpa using hk)]
        exact ih hd2

/-- The chart's `grouped.get(date, 0)` equals the date's total over the raw
rows: present dates return their grouped sum, absent dates return 0, which
is also the (empty) sum for that date. -/
lemma lookupOr_groupby_date (rows : List Row) (d : ℤ) :
    lookupOr (groupby_date_sum rows) d 0 = sumOnDate rows d := by
  unfold lookupOr groupby_date_sum
  by_cases hd : d ∈ (rows.map (fun r => r.date)).dedup
  · rw [find?_keyed (fun k => sumOnDate rows k) _ d hd]
  · have hnone : (((rows.map (fun r => r.date)).dedup.map
        (fun k => (k, sumOnDate rows k))).find? (fun p => p.1 = d)) = none := by
      apply List.find?_eq_none.mpr
      intro p hp
      simp only [List.mem_map] at hp
      obtain ⟨k, hk, rfl⟩ := hp
      simp only [decide_eq_true_eq]
      intro hkd
      exact hd (hkd ▸ hk)
    rw [hnone]
    have hfil : rows.filter (fun r => r.date = d) = [] := by
      apply List.filter_eq_nil_iff.mpr
      intro r hr
      simp only [decide_eq_true_eq]
      intro hrd
      exact hd (List.mem_dedup.mpr (List.mem_map.mpr ⟨r, hr, hrd⟩))
    simp [sumOnDate, hfil]

/-- **C5** — corrected. The claim says the daily series is dense with
floor-division minutes and that the empty log yields 14 zeros; the code
draws no series at all for an empty log, and divides by 60 with true
division (a 90-second day charts as 1.5 where the specification's function
yields 1). -/
theorem C5_counterexample :
    draw_daily_chart ([] : List Row) 0 = none ∧
    dailyLastNDays_spec ([] : List Row) 14 0 =
      [0, 0, 0, 0, 0, 0, 0, 0, 0, 0, 0, 0, 0, 0] ∧
    draw_daily_chart [⟨0, 10, "Math", 90⟩] 10 =
      some [0, 0, 0, 0, 0, 0, 0, 0, 0, 0, 0, 0, 0, (3:ℚ)/2] ∧
    dailyLastNDays_spec [⟨0, 10, "Math", 90⟩] 14 10 =
      [0, 0, 0, 0, 0, 0, 0, 0, 0, 0, 0, 0, 0, 1] := by
  refine ⟨rfl, by decide, ?_, by decide⟩
  norm_num [draw_daily_chart, groupby_date_sum, sumOnDate, lookupOr,
    List.range_succ, List.dedup_cons_of_not_mem]

/-- **C5 amended** — for every nonempty log the daily chart is a dense
series of exactly 14 values, one per calendar date from `today − 13`
through `today` oldest first, each the date's total seconds divided by 60
in true (not floored) division, with an explicit 0 for dates without
sessions; for the empty log no series is produced. -/
theorem C5_daily_chart_dense_exact (rows : List Row) (now : ℚ) (h : rows ≠ []) :
    draw_daily_chart rows now =
      some ((List.range 14).map
        (fun i : ℕ => ((sumOnDate rows (⌊now⌋ - 13 + (i : ℤ)) : ℤ) : ℚ) / 60)) ∧
    (∀ l, draw_daily_chart rows now = some l → l.length = 14) := by
  have hne : ¬ rows.isEmpty = true := by
    cases rows with
    | nil => exact absurd rfl h
    | cons r rs => simp
  have hmain : draw_daily_chart rows now =
      some ((List.range 14).map
        (fun i : ℕ => ((sumOnDate rows (⌊now⌋ - 13 + (i : ℤ)) : ℤ) : ℚ) / 60)) := by
    unfold draw_daily_chart
    rw [if_neg hne]
    simp only [lookupOr_groupby_date]
  refine ⟨hmain, ?_⟩
  intro l hl
  rw [hmain] at hl
  cases hl
  simp

/-- **C5 witness** — the dense-series characterisation on a one-session
log. -/
theorem C5_witness :
    draw_daily_chart [⟨0, 10, "Math", 90⟩] 10 =
      some ((List.range 14).map
        (fun i : ℕ => ((sumOnDate [(⟨0, 10, "Math", 90⟩ : Row)]
            (⌊(10:ℚ)⌋ - 13 + (i : ℤ)) : ℤ) : ℚ) / 60)) :=
  (C5_daily_chart_dense_exact [⟨0, 10, "Math", 90⟩] 10 (by simp)).1

end StudyTimer
